import Mathlib

/-!
# Verification of the Vaughan dApp Gateway core

Shallow embedding of the dApp request-mediation core of the Vaughan wallet
(`src-tauri/src/dapp/{rate_limiter,session,approval}.rs` and
`src-tauri/src/commands/dapp.rs`), with theorems settling the spec claims.

Conventions:
* Rust `f64` token counts are modelled as `ℚ` (every value manipulated by the
  rate limiter on the paths considered is small and exactly representable).
* `std::time::Instant` / unix-second clocks are passed explicitly as `ℚ` or
  `ℕ` arguments.
* `HashMap`s are modelled as association lists with insert-replaces-key
  semantics (`lookupList` / `insertList` / `eraseList`).
* Fallible operations return `Except WalletError _` or pair their new state
  with the produced error / delivered responses.
-/

namespace Vaughan

/-- First-match association-list lookup, modelling `HashMap::get`. -/
def lookupList {κ β : Type} [DecidableEq κ] : List (κ × β) → κ → Option β
  | [], _ => none
  | (k, v) :: rest, k' => if k = k' then some v else lookupList rest k'

/-- Insert-or-replace, modelling `HashMap::insert` (old binding dropped). -/
def insertList {κ β : Type} [DecidableEq κ] (m : List (κ × β)) (k : κ) (v : β) :
    List (κ × β) :=
  (k, v) :: m.filter (fun p => decide (p.1 ≠ k))

/-- Key removal, modelling `HashMap::remove`. -/
def eraseList {κ β : Type} [DecidableEq κ] (m : List (κ × β)) (k : κ) :
    List (κ × β) :=
  m.filter (fun p => decide (p.1 ≠ k))

/-- Subset of `error/mod.rs`'s `WalletError` reachable from the gateway core. -/
inductive WalletError : Type
  | NotConnected
  | OriginMismatch
  | RateLimitExceeded
  | Custom (msg : String)
  deriving DecidableEq, Repr

/-- Rust `Display` text of the modelled `WalletError` variants (`error/mod.rs`). -/
def WalletError.display : WalletError → String
  | .NotConnected => "Not connected: no active session"
  | .OriginMismatch => "Origin mismatch: session origin doesn't match request origin"
  | .RateLimitExceeded => "Rate limit exceeded: too many requests"
  | .Custom msg => msg

/-! ## Rate limiter (`dapp/rate_limiter.rs`) -/

/-- Rust `RateLimitConfig`: multi-tier rate limit configuration. -/
structure RateLimitConfig : Type where
  per_second : ℚ
  per_minute : ℚ
  per_hour : ℚ
  burst_size : ℚ
  deriving DecidableEq, Repr

/-- Rust `impl Default for RateLimitConfig`. -/
def RateLimitConfig.default : RateLimitConfig :=
  { per_second := 10, per_minute := 100, per_hour := 1000, burst_size := 20 }

/-- Rust `RateLimitConfig::sensitive()`. -/
def RateLimitConfig.sensitive : RateLimitConfig :=
  { per_second := 1, per_minute := 10, per_hour := 100, burst_size := 2 }

/-- Rust `RateLimitConfig::read_only()`. -/
def RateLimitConfig.read_only : RateLimitConfig :=
  { per_second := 20, per_minute := 200, per_hour := 2000, burst_size := 50 }

/-- Rust `RateLimitConfig::connection()`. -/
def RateLimitConfig.connection : RateLimitConfig :=
  { per_second := 5, per_minute := 20, per_hour := 100, burst_size := 10 }

/-- Rust `MultiTierBucket`: token buckets for the second / minute / hour tiers,
each with its own last-refill instant. -/
structure MultiTierBucket : Type where
  second_tokens : ℚ
  second_last_refill : ℚ
  minute_tokens : ℚ
  minute_last_refill : ℚ
  hour_tokens : ℚ
  hour_last_refill : ℚ
  config : RateLimitConfig
  deriving DecidableEq, Repr

/-- Rust `MultiTierBucket::new`: fresh bucket, all tiers full, refilled "now". -/
def MultiTierBucket.new (config : RateLimitConfig) (now : ℚ) : MultiTierBucket :=
  { second_tokens := config.burst_size
    second_last_refill := now
    minute_tokens := config.per_minute
    minute_last_refill := now
    hour_tokens := config.per_hour
    hour_last_refill := now
    config := config }

/-- Rust `MultiTierBucket::refill`: proportional refill of all three tiers,
capped at each tier's ceiling. -/
def MultiTierBucket.refill (b : MultiTierBucket) (now : ℚ) : MultiTierBucket :=
  { b with
    second_tokens :=
      min (b.second_tokens + (now - b.second_last_refill) * b.config.per_second)
        b.config.burst_size
    second_last_refill := now
    minute_tokens :=
      min (b.minute_tokens + ((now - b.minute_last_refill) / 60) * b.config.per_minute)
        b.config.per_minute
    minute_last_refill := now
    hour_tokens :=
      min (b.hour_tokens + ((now - b.hour_last_refill) / 3600) * b.config.per_hour)
        b.config.per_hour
    hour_last_refill := now }

/-- Rust `MultiTierBucket::try_consume`: refill, then check the three tiers in
order second → minute → hour; on success decrement one token from each.
The returned bucket is the post-refill (and, on success, post-decrement)
state, matching the Rust in-place mutation. -/
def MultiTierBucket.try_consume (b : MultiTierBucket) (now : ℚ) :
    MultiTierBucket × Option String :=
  let r := b.refill now
  if r.second_tokens < 1 then (r, some "per-second limit exceeded")
  else if r.minute_tokens < 1 then (r, some "per-minute limit exceeded")
  else if r.hour_tokens < 1 then (r, some "per-hour limit exceeded")
  else
    ({ r with
        second_tokens := r.second_tokens - 1
        minute_tokens := r.minute_tokens - 1
        hour_tokens := r.hour_tokens - 1 }, none)

/-- The `sensitive_methods` list of `MethodRateLimits::new`. -/
def sensitive_methods : List String :=
  ["eth_sendTransaction", "eth_sign", "eth_signTypedData", "eth_signTypedData_v3",
   "eth_signTypedData_v4", "personal_sign", "wallet_addEthereumChain",
   "wallet_switchEthereumChain"]

/-- The `connection_methods` list of `MethodRateLimits::new`. -/
def connection_methods : List String :=
  ["eth_requestAccounts", "wallet_requestPermissions"]

/-- The `read_only_methods` list of `MethodRateLimits::new`. -/
def read_only_methods : List String :=
  ["eth_call", "eth_estimateGas", "eth_getBalance", "eth_getCode",
   "eth_getStorageAt", "eth_getTransactionCount", "eth_getBlockByNumber",
   "eth_getBlockByHash", "eth_getTransactionByHash", "eth_getTransactionReceipt",
   "eth_getLogs"]

/-- The `configs` map built by `MethodRateLimits::new` (the three method
lists are pairwise disjoint, so the HashMap equals this association list). -/
def methodConfigs : List (String × RateLimitConfig) :=
  sensitive_methods.map (fun m => (m, RateLimitConfig.sensitive))
    ++ connection_methods.map (fun m => (m, RateLimitConfig.connection))
    ++ read_only_methods.map (fun m => (m, RateLimitConfig.read_only))

/-- Rust `MethodRateLimits::get_config`: method-specific config, defaulting. -/
def get_config (method : String) : RateLimitConfig :=
  (lookupList methodConfigs method).getD RateLimitConfig.default

/-- The `RateLimiter`'s bucket map, keyed by `"{origin}:{method}"`. -/
abbrev BucketMap : Type := List (String × MultiTierBucket)

/-- Rust `RateLimiter::check_limit`: get-or-create the `(origin, method)` bucket,
try to consume; `none` in the second component means `Ok(())`, `some tier`
means `Err(WalletError::RateLimitExceeded)` with `tier` the logged cause. -/
def check_limit (buckets : BucketMap) (origin method : String) (now : ℚ) :
    BucketMap × Option String :=
  let key := origin ++ ":" ++ method
  let bucket := (lookupList buckets key).getD
    (MultiTierBucket.new (get_config method) now)
  let res := bucket.try_consume now
  (insertList buckets key res.1, res.2)

/-- Bucket map after `n` `check_limit` calls for one `(origin, method)` key,
starting from the empty (fresh) limiter, with no time elapsing. -/
def checkRun (origin method : String) (now : ℚ) : ℕ → BucketMap
  | 0 => []
  | n + 1 => (check_limit (checkRun origin method now n) origin method now).1

/-- Whether the `(n+1)`-th consecutive `check_limit` call (zero-based `n`)
succeeds, starting from a fresh limiter with no time elapsing. -/
def checkOk (origin method : String) (now : ℚ) (n : ℕ) : Bool :=
  ((check_limit (checkRun origin method now n) origin method now).2).isNone

/-! ## Association-list lemmas -/

lemma lookupList_filter_key {κ β : Type} [DecidableEq κ] (m : List (κ × β))
    (p : κ → Bool) (k : κ) :
    lookupList (m.filter (fun e => p e.1)) k
      = if p k then lookupList m k else none := by
  induction m with
  | nil => simp [lookupList]
  | cons e rest ih =>
    obtain ⟨k', v⟩ := e
    by_cases hp : p k'
    · by_cases hk : k' = k
      · subst hk; simp [lookupList, hp]
      · simp [lookupList, hp, hk, ih]
    · by_cases hk : k' = k
      · subst hk; simp [lookupList, hp, ih]
      · simp [lookupList, hp, hk, ih]

lemma lookupList_insert_self {κ β : Type} [DecidableEq κ] (m : List (κ × β))
    (k : κ) (v : β) : lookupList (insertList m k v) k = some v := by
  simp [insertList, lookupList]

lemma lookupList_insert_ne {κ β : Type} [DecidableEq κ] (m : List (κ × β))
    (k k' : κ) (v : β) (h : k' ≠ k) :
    lookupList (insertList m k v) k' = lookupList m k' := by
  have h' : k ≠ k' := fun e => h e.symm
  simp only [insertList, lookupList, if_neg h']
  have := lookupList_filter_key m (fun x => decide (x ≠ k)) k'
  simp only [this, decide_eq_true_eq]
  simp [h]

lemma lookupList_erase_self {κ β : Type} [DecidableEq κ] (m : List (κ × β))
    (k : κ) : lookupList (eraseList m k) k = none := by
  have := lookupList_filter_key m (fun x => decide (x ≠ k)) k
  simp only [eraseList] at *
  simp_all

lemma lookupList_erase_ne {κ β : Type} [DecidableEq κ] (m : List (κ × β))
    (k k' : κ) (h : k' ≠ k) :
    lookupList (eraseList m k) k' = lookupList m k' := by
  have := lookupList_filter_key m (fun x => decide (x ≠ k)) k'
  simp only [eraseList] at *
  simp_all

/-! ## Rate-limiter lemmas -/

/-- Refilling an "aligned" bucket (all last-refill instants equal to `now`,
all token counts at or below their ceilings) changes nothing. -/
lemma refill_aligned (cfg : RateLimitConfig) (s m h t : ℚ)
    (hs : s ≤ cfg.burst_size) (hm : m ≤ cfg.per_minute) (hh : h ≤ cfg.per_hour) :
    MultiTierBucket.refill ⟨s, t, m, t, h, t, cfg⟩ t = ⟨s, t, m, t, h, t, cfg⟩ := by
  simp [MultiTierBucket.refill, min_eq_left hs, min_eq_left hm, min_eq_left hh]

/-- Consuming from an aligned bucket with at least one token in every tier
succeeds and decrements each tier by exactly one. -/
lemma try_consume_aligned_ok (cfg : RateLimitConfig) (s m h t : ℚ)
    (hs1 : 1 ≤ s) (hm1 : 1 ≤ m) (hh1 : 1 ≤ h)
    (hs : s ≤ cfg.burst_size) (hm : m ≤ cfg.per_minute) (hh : h ≤ cfg.per_hour) :
    MultiTierBucket.try_consume ⟨s, t, m, t, h, t, cfg⟩ t
      = (⟨s - 1, t, m - 1, t, h - 1, t, cfg⟩, none) := by
  simp only [MultiTierBucket.try_consume, refill_aligned cfg s m h t hs hm hh]
  rw [if_neg (not_lt.mpr hs1), if_neg (not_lt.mpr hm1), if_neg (not_lt.mpr hh1)]

/-- Consuming from an aligned bucket whose second tier is exhausted fails
with the per-second tier and leaves all token counts unchanged. -/
lemma try_consume_aligned_fail_second (cfg : RateLimitConfig) (s m h t : ℚ)
    (hs1 : s < 1)
    (hs : s ≤ cfg.burst_size) (hm : m ≤ cfg.per_minute) (hh : h ≤ cfg.per_hour) :
    MultiTierBucket.try_consume ⟨s, t, m, t, h, t, cfg⟩ t
      = (⟨s, t, m, t, h, t, cfg⟩, some "per-second limit exceeded") := by
  simp only [MultiTierBucket.try_consume, refill_aligned cfg s m h t hs hm hh]
  rw [if_pos hs1]

/-- Closed form of the bucket for `(origin, method)` after `k` consecutive
`check_limit` calls from a fresh limiter with no time elapsing. -/
lemma checkRun_bucket (origin method : String) (t : ℚ) (k : ℕ)
    (hB : (k : ℚ) ≤ (get_config method).burst_size)
    (hM : (k : ℚ) ≤ (get_config method).per_minute)
    (hH : (k : ℚ) ≤ (get_config method).per_hour) :
    (lookupList (checkRun origin method t k) (origin ++ ":" ++ method)).getD
        (MultiTierBucket.new (get_config method) t)
      = ⟨(get_config method).burst_size - k, t,
         (get_config method).per_minute - k, t,
         (get_config method).per_hour - k, t, get_config method⟩ := by
  induction k with
  | zero => simp [checkRun, lookupList, MultiTierBucket.new]
  | succ n ih =>
    have hn0 : (n : ℚ) ≤ (n : ℚ) + 1 := by linarith
    have hn1 : ((n : ℕ) : ℚ) + 1 = ((n + 1 : ℕ) : ℚ) := by push_cast; ring
    have hB' : (n : ℚ) ≤ (get_config method).burst_size := by
      refine le_trans hn0 ?_; rw [hn1]; exact hB
    have hM' : (n : ℚ) ≤ (get_config method).per_minute := by
      refine le_trans hn0 ?_; rw [hn1]; exact hM
    have hH' : (n : ℚ) ≤ (get_config method).per_hour := by
      refine le_trans hn0 ?_; rw [hn1]; exact hH
    have hB1 : 1 ≤ (get_config method).burst_size - n := by
      have : ((n : ℚ)) + 1 ≤ (get_config method).burst_size := by rw [hn1]; exact hB
      linarith
    have hM1 : 1 ≤ (get_config method).per_minute - n := by
      have : ((n : ℚ)) + 1 ≤ (get_config method).per_minute := by rw [hn1]; exact hM
      linarith
    have hH1 : 1 ≤ (get_config method).per_hour - n := by
      have : ((n : ℚ)) + 1 ≤ (get_config method).per_hour := by rw [hn1]; exact hH
      linarith
    have hsub : 0 ≤ (n : ℚ) := Nat.cast_nonneg n
    show (lookupList
        (check_limit (checkRun origin method t n) origin method t).1
        (origin ++ ":" ++ method)).getD _ = _
    simp only [check_limit]
    rw [ih hB' hM' hH']
    rw [try_consume_aligned_ok _ _ _ _ _ hB1 hM1 hH1 (by linarith) (by linarith)
      (by linarith)]
    rw [lookupList_insert_self]
    simp only [Option.getD_some]
    congr 1 <;> push_cast <;> ring

/-- Generic burst bound for one rate-limit profile: if `method` classifies to
a profile whose burst size `B` is strictly below the per-minute and per-hour
ceilings, exactly the first `B` consecutive `check_limit` calls succeed. -/
lemma check_limit_burst_profile (origin method : String) (t : ℚ) (B : ℕ)
    (hB : ((B : ℕ) : ℚ) = (get_config method).burst_size)
    (hM : (get_config method).burst_size < (get_config method).per_minute)
    (hH : (get_config method).burst_size < (get_config method).per_hour) :
    (∀ k < B, checkOk origin method t k = true) ∧
      checkOk origin method t B = false := by
  rw [← hB] at hM hH
  constructor
  · intro k hk
    have hk' : k + 1 ≤ B := hk
    have hk1 : ((k : ℕ) : ℚ) + 1 ≤ (B : ℚ) := by
      have : ((k + 1 : ℕ) : ℚ) ≤ (B : ℚ) := by exact_mod_cast hk'
      push_cast at this; linarith
    have hk0 : (0 : ℚ) ≤ (k : ℚ) := Nat.cast_nonneg k
    have hkB : ((k : ℕ) : ℚ) ≤ (get_config method).burst_size := by
      rw [← hB]; linarith
    have hkM : ((k : ℕ) : ℚ) ≤ (get_config method).per_minute := by linarith
    have hkH : ((k : ℕ) : ℚ) ≤ (get_config method).per_hour := by linarith
    simp only [checkOk, check_limit]
    rw [checkRun_bucket origin method t k hkB hkM hkH]
    rw [try_consume_aligned_ok _ _ _ _ _ (by rw [← hB]; linarith) (by linarith)
      (by linarith) (by linarith) (by linarith) (by linarith)]
    rfl
  · have hB0 : (0 : ℚ) ≤ (B : ℚ) := Nat.cast_nonneg B
    have hBB : ((B : ℕ) : ℚ) ≤ (get_config method).burst_size := le_of_eq hB
    have hBM : ((B : ℕ) : ℚ) ≤ (get_config method).per_minute := le_of_lt hM
    have hBH : ((B : ℕ) : ℚ) ≤ (get_config method).per_hour := le_of_lt hH
    simp only [checkOk, check_limit]
    rw [checkRun_bucket origin method t B hBB hBM hBH]
    rw [try_consume_aligned_fail_second _ _ _ _ _ (by rw [← hB]; norm_num)
      (by linarith) (by linarith) (by linarith)]
    rfl

/-- C1: for every method-class profile (sensitive burst 2, connection burst
10, read-only burst 50, default burst 20), starting from a fresh bucket for a
given `(origin, method)` key with no time elapsing between calls, exactly the
first `B` consecutive `check_limit` calls succeed and the `(B+1)`-th fails
with `RateLimitExceeded`. -/
theorem check_limit_burst (origin method : String) (t : ℚ) :
    (get_config method = RateLimitConfig.sensitive →
      (∀ k < 2, checkOk origin method t k = true) ∧
        checkOk origin method t 2 = false) ∧
    (get_config method = RateLimitConfig.connection →
      (∀ k < 10, checkOk origin method t k = true) ∧
        checkOk origin method t 10 = false) ∧
    (get_config method = RateLimitConfig.read_only →
      (∀ k < 50, checkOk origin method t k = true) ∧
        checkOk origin method t 50 = false) ∧
    (get_config method = RateLimitConfig.default →
      (∀ k < 20, checkOk origin method t k = true) ∧
        checkOk origin method t 20 = false) := by
  refine ⟨fun hc => ?_, fun hc => ?_, fun hc => ?_, fun hc => ?_⟩
  · exact check_limit_burst_profile origin method t 2
      (by rw [hc]; norm_num [RateLimitConfig.sensitive])
      (by rw [hc]; norm_num [RateLimitConfig.sensitive])
      (by rw [hc]; norm_num [RateLimitConfig.sensitive])
  · exact check_limit_burst_profile origin method t 10
      (by rw [hc]; norm_num [RateLimitConfig.connection])
      (by rw [hc]; norm_num [RateLimitConfig.connection])
      (by rw [hc]; norm_num [RateLimitConfig.connection])
  · exact check_limit_burst_profile origin method t 50
      (by rw [hc]; norm_num [RateLimitConfig.read_only])
      (by rw [hc]; norm_num [RateLimitConfig.read_only])
      (by rw [hc]; norm_num [RateLimitConfig.read_only])
  · exact check_limit_burst_profile origin method t 20
      (by rw [hc]; norm_num [RateLimitConfig.default])
      (by rw [hc]; norm_num [RateLimitConfig.default])
      (by rw [hc]; norm_num [RateLimitConfig.default])

/-- Witness for C1 at concrete inputs: one representative method per profile,
instantiated at time 0 for the origin `"w1:https://example.org"`. -/
theorem check_limit_burst_witness :
    (checkOk "w1:https://example.org" "eth_sendTransaction" 0 1 = true ∧
      checkOk "w1:https://example.org" "eth_sendTransaction" 0 2 = false) ∧
    (checkOk "w1:https://example.org" "eth_requestAccounts" 0 9 = true ∧
      checkOk "w1:https://example.org" "eth_requestAccounts" 0 10 = false) ∧
    (checkOk "w1:https://example.org" "eth_call" 0 49 = true ∧
      checkOk "w1:https://example.org" "eth_call" 0 50 = false) ∧
    (checkOk "w1:https://example.org" "unknown_method" 0 19 = true ∧
      checkOk "w1:https://example.org" "unknown_method" 0 20 = false) := by
  refine ⟨⟨?_, ?_⟩, ⟨?_, ?_⟩, ⟨?_, ?_⟩, ⟨?_, ?_⟩⟩
  · exact ((check_limit_burst "w1:https://example.org" "eth_sendTransaction" 0).1
      (by decide)).1 1 (by norm_num)
  · exact ((check_limit_burst "w1:https://example.org" "eth_sendTransaction" 0).1
      (by decide)).2
  · exact ((check_limit_burst "w1:https://example.org" "eth_requestAccounts" 0).2.1
      (by decide)).1 9 (by norm_num)
  · exact ((check_limit_burst "w1:https://example.org" "eth_requestAccounts" 0).2.1
      (by decide)).2
  · exact ((check_limit_burst "w1:https://example.org" "eth_call" 0).2.2.1
      (by decide)).1 49 (by norm_num)
  · exact ((check_limit_burst "w1:https://example.org" "eth_call" 0).2.2.1
      (by decide)).2
  · exact ((check_limit_burst "w1:https://example.org" "unknown_method" 0).2.2.2
      (by decide)).1 19 (by norm_num)
  · exact ((check_limit_burst "w1:https://example.org" "unknown_method" 0).2.2.2
      (by decide)).2

/-- C7: on every `try_consume` for an existing bucket, the proportional
refill caps every tier at its ceiling and keeps every tier nonnegative, and
then either all three tiers are decremented by exactly one (success) or —
when some tier holds fewer than 1 token — no tier is decremented and the
error names the first failing tier in the order second, minute, hour. -/
theorem try_consume_all_or_nothing (b : MultiTierBucket) (now : ℚ)
    (hts : b.second_last_refill ≤ now) (htm : b.minute_last_refill ≤ now)
    (hth : b.hour_last_refill ≤ now)
    (hs0 : 0 ≤ b.second_tokens) (hm0 : 0 ≤ b.minute_tokens)
    (hh0 : 0 ≤ b.hour_tokens)
    (hps : 0 ≤ b.config.per_second) (hpm : 0 ≤ b.config.per_minute)
    (hph : 0 ≤ b.config.per_hour) (hbs : 0 ≤ b.config.burst_size) :
    ((b.refill now).second_tokens ≤ b.config.burst_size ∧
      (b.refill now).minute_tokens ≤ b.config.per_minute ∧
      (b.refill now).hour_tokens ≤ b.config.per_hour) ∧
    (0 ≤ (b.refill now).second_tokens ∧ 0 ≤ (b.refill now).minute_tokens ∧
      0 ≤ (b.refill now).hour_tokens) ∧
    (1 ≤ (b.refill now).second_tokens → 1 ≤ (b.refill now).minute_tokens →
      1 ≤ (b.refill now).hour_tokens →
      (b.try_consume now).2 = none ∧
      (b.try_consume now).1.second_tokens = (b.refill now).second_tokens - 1 ∧
      (b.try_consume now).1.minute_tokens = (b.refill now).minute_tokens - 1 ∧
      (b.try_consume now).1.hour_tokens = (b.refill now).hour_tokens - 1) ∧
    ((b.refill now).second_tokens < 1 →
      (b.try_consume now).2 = some "per-second limit exceeded" ∧
      (b.try_consume now).1 = b.refill now) ∧
    (¬ (b.refill now).second_tokens < 1 → (b.refill now).minute_tokens < 1 →
      (b.try_consume now).2 = some "per-minute limit exceeded" ∧
      (b.try_consume now).1 = b.refill now) ∧
    (¬ (b.refill now).second_tokens < 1 → ¬ (b.refill now).minute_tokens < 1 →
      (b.refill now).hour_tokens < 1 →
      (b.try_consume now).2 = some "per-hour limit exceeded" ∧
      (b.try_consume now).1 = b.refill now) := by
  have hse : 0 ≤ (now - b.second_last_refill) * b.config.per_second :=
    mul_nonneg (by linarith) hps
  have hme : 0 ≤ ((now - b.minute_last_refill) / 60) * b.config.per_minute :=
    mul_nonneg (div_nonneg (by linarith) (by norm_num)) hpm
  have hhe : 0 ≤ ((now - b.hour_last_refill) / 3600) * b.config.per_hour :=
    mul_nonneg (div_nonneg (by linarith) (by norm_num)) hph
  refine ⟨⟨?_, ?_, ?_⟩, ⟨?_, ?_, ?_⟩, ?_, ?_, ?_, ?_⟩
  · exact min_le_right _ _
  · exact min_le_right _ _
  · exact min_le_right _ _
  · exact le_min (by linarith) hbs
  · exact le_min (by linarith) hpm
  · exact le_min (by linarith) hph
  · intro h1 h2 h3
    simp only [MultiTierBucket.try_consume]
    rw [if_neg (not_lt.mpr h1), if_neg (not_lt.mpr h2), if_neg (not_lt.mpr h3)]
    exact ⟨rfl, rfl, rfl, rfl⟩
  · intro h1
    simp only [MultiTierBucket.try_consume]
    rw [if_pos h1]
    exact ⟨rfl, rfl⟩
  · intro h1 h2
    simp only [MultiTierBucket.try_consume]
    rw [if_neg h1, if_pos h2]
    exact ⟨rfl, rfl⟩
  · intro h1 h2 h3
    simp only [MultiTierBucket.try_consume]
    rw [if_neg h1, if_neg h2, if_pos h3]
    exact ⟨rfl, rfl⟩

/-- Witness for C7: a sensitive-profile bucket one second after its last
refill, with a drained second tier. -/
theorem try_consume_all_or_nothing_witness :
    ((MultiTierBucket.refill
        ⟨0, 0, 9, 0, 99, 0, RateLimitConfig.sensitive⟩ 1).second_tokens
      ≤ RateLimitConfig.sensitive.burst_size) ∧
    (0 ≤ (MultiTierBucket.refill
        ⟨0, 0, 9, 0, 99, 0, RateLimitConfig.sensitive⟩ 1).second_tokens) := by
  have h := try_consume_all_or_nothing
    ⟨0, 0, 9, 0, 99, 0, RateLimitConfig.sensitive⟩ 1
    (by decide) (by decide) (by decide) (by decide) (by decide) (by decide)
    (by decide) (by decide) (by decide) (by decide)
  exact ⟨h.1.1, h.2.1.1⟩

/-! ## Session manager (`dapp/session.rs`) -/

/-- Rust `SessionKey`: `(window_label, origin)`. -/
abbrev SessionKey : Type := String × String

/-- Rust `DappConnection`: one dApp session record (addresses kept abstract as
strings). -/
structure DappConnection : Type where
  window_label : String
  origin : String
  name : Option String
  icon : Option String
  accounts : List String
  connected_at : ℕ
  last_activity : ℕ
  deriving DecidableEq, Repr

/-- The `SessionManager`'s `sessions` map. -/
abbrev SessionMap : Type := List (SessionKey × DappConnection)

/-- Rust `SessionManager::create_session_for_window`: insert/overwrite the
`(window_label, origin)` record with a fresh connection stamped `now`
(the Rust version always returns `Ok(())`). -/
def create_session_for_window (sessions : SessionMap) (window_label origin : String)
    (name icon : Option String) (accounts : List String) (now : ℕ) : SessionMap :=
  insertList sessions (window_label, origin)
    { window_label := window_label
      origin := origin
      name := name
      icon := icon
      accounts := accounts
      connected_at := now
      last_activity := now }

/-- Rust `SessionManager::get_session_by_window`. -/
def get_session_by_window (sessions : SessionMap) (window_label origin : String) :
    Option DappConnection :=
  lookupList sessions (window_label, origin)

/-- Rust `SessionManager::validate_session_for_window`: fail closed when no
record exists, then defensively re-check the stored record's origin and
window label against the query. -/
def validate_session_for_window (sessions : SessionMap)
    (window_label origin : String) : Except WalletError Unit :=
  match lookupList sessions (window_label, origin) with
  | some session =>
      if session.origin ≠ origin then .error .OriginMismatch
      else if session.window_label ≠ window_label then
        .error (.Custom "Window label mismatch")
      else .ok ()
  | none => .error .NotConnected

/-- Rust `SessionManager::update_activity_for_window`: bump `last_activity` to
`max now (last_activity + 1)` (the Rust `new_activity.max(session.last_activity + 1)`),
or fail with `NotConnected`. -/
def update_activity_for_window (sessions : SessionMap)
    (window_label origin : String) (now : ℕ) :
    SessionMap × Except WalletError Unit :=
  match lookupList sessions (window_label, origin) with
  | some session =>
      (insertList sessions (window_label, origin)
        { session with last_activity := max now (session.last_activity + 1) },
       .ok ())
  | none => (sessions, .error .NotConnected)

/-- Rust `SessionManager::remove_session_by_window`. -/
def remove_session_by_window (sessions : SessionMap)
    (window_label origin : String) : SessionMap :=
  eraseList sessions (window_label, origin)

/-- Rust `SessionManager::remove_all_sessions_for_window`:
`sessions.retain(|(label, _), _| label != window_label)`. -/
def remove_all_sessions_for_window (sessions : SessionMap)
    (window_label : String) : SessionMap :=
  sessions.filter (fun e => decide (e.1.1 ≠ window_label))

/-- Rust `SessionManager::clear_all`. -/
def sessions_clear_all (_sessions : SessionMap) : SessionMap := []

/-- Rust `SessionManager::clear_expired`: keep sessions active within 24 hours. -/
def sessions_clear_expired (sessions : SessionMap) (now : ℕ) : SessionMap :=
  sessions.filter (fun e => decide (now - e.2.last_activity < 86400))

/-- One `SessionManager` operation (the legacy `create_session` /
`update_activity` / `remove_session` wrappers are the same operations with
`window_label = ""`). -/
inductive SessionOp : Type
  | create (window_label origin : String) (name icon : Option String)
      (accounts : List String) (now : ℕ)
  | updateActivity (window_label origin : String) (now : ℕ)
  | removeSession (window_label origin : String)
  | removeAll (window_label : String)
  | clearAll
  | clearExpired (now : ℕ)

/-- Apply one `SessionManager` operation to the session map. -/
def applySessionOp (sessions : SessionMap) : SessionOp → SessionMap
  | .create w o name icon accounts now =>
      create_session_for_window sessions w o name icon accounts now
  | .updateActivity w o now => (update_activity_for_window sessions w o now).1
  | .removeSession w o => remove_session_by_window sessions w o
  | .removeAll w => remove_all_sessions_for_window sessions w
  | .clearAll => sessions_clear_all sessions
  | .clearExpired now => sessions_clear_expired sessions now

/-- The session-map state reached from the empty map by a list of
`SessionManager` operations. -/
def runSessionOps (ops : List SessionOp) : SessionMap :=
  ops.foldl applySessionOp []

/-- Key/record coherence: every stored entry's record has `(window_label,
origin)` fields equal to its map key. -/
abbrev SessionWF (sessions : SessionMap) : Prop :=
  ∀ e ∈ sessions, e.2.window_label = e.1.1 ∧ e.2.origin = e.1.2

lemma sessionWF_nil : SessionWF [] := by
  intro e he
  simp at he

lemma lookupList_mem {κ β : Type} [DecidableEq κ] (m : List (κ × β)) (k : κ)
    (v : β) (h : lookupList m k = some v) : (k, v) ∈ m := by
  induction m with
  | nil => simp [lookupList] at h
  | cons e rest ih =>
    obtain ⟨k', v'⟩ := e
    by_cases hk : k' = k
    · subst hk
      simp only [lookupList, if_pos rfl] at h
      injection h with h
      subst h
      exact List.mem_cons_self _ _
    · simp only [lookupList, if_neg hk] at h
      exact List.mem_cons_of_mem _ (ih h)

lemma sessionWF_insert (sessions : SessionMap) (k : SessionKey)
    (c : DappConnection) (hwf : SessionWF sessions)
    (hc : c.window_label = k.1 ∧ c.origin = k.2) :
    SessionWF (insertList sessions k c) := by
  intro e he
  simp only [insertList, List.mem_cons] at he
  rcases he with he | he
  · subst he; exact hc
  · exact hwf e (List.mem_of_mem_filter he)

lemma sessionWF_filter (sessions : SessionMap)
    (p : SessionKey × DappConnection → Bool) (hwf : SessionWF sessions) :
    SessionWF (sessions.filter p) :=
  fun e he => hwf e (List.mem_of_mem_filter he)

/-- Every `SessionManager` operation preserves key/record coherence. -/
lemma sessionWF_applyOp (sessions : SessionMap) (op : SessionOp)
    (hwf : SessionWF sessions) : SessionWF (applySessionOp sessions op) := by
  cases op with
  | create w o name icon accounts now =>
      exact sessionWF_insert _ _ _ hwf ⟨rfl, rfl⟩
  | updateActivity w o now =>
      simp only [applySessionOp, update_activity_for_window]
      cases hl : lookupList sessions (w, o) with
      | none => exact hwf
      | some session =>
          have hs := hwf _ (lookupList_mem _ _ _ hl)
          exact sessionWF_insert _ _ _ hwf ⟨hs.1, hs.2⟩
  | removeSession w o => exact sessionWF_filter _ _ hwf
  | removeAll w => exact sessionWF_filter _ _ hwf
  | clearAll => intro e he; simp [applySessionOp, sessions_clear_all] at he
  | clearExpired now => exact sessionWF_filter _ _ hwf

/-- Every state reachable through `SessionManager`'s own operations is
key/record coherent. -/
lemma sessionWF_run (ops : List SessionOp) : SessionWF (runSessionOps ops) := by
  suffices h : ∀ s, SessionWF s → SessionWF (ops.foldl applySessionOp s) from
    h [] sessionWF_nil
  induction ops with
  | nil => intro s hs; exact hs
  | cons op rest ih =>
      intro s hs
      exact ih _ (sessionWF_applyOp s op hs)

/-- C10: on every session-map state reachable through `SessionManager`'s own
operations, `validate_session_for_window` returns `Ok` exactly when an entry
exists under the queried `(window, origin)` key and `NotConnected` otherwise;
the two defensive mismatch branches are unreachable. -/
theorem validate_session_defensive_unreachable (ops : List SessionOp)
    (w o : String) :
    (validate_session_for_window (runSessionOps ops) w o = .ok () ↔
      (get_session_by_window (runSessionOps ops) w o).isSome) ∧
    validate_session_for_window (runSessionOps ops) w o ≠
      .error .OriginMismatch ∧
    validate_session_for_window (runSessionOps ops) w o ≠
      .error (.Custom "Window label mismatch") ∧
    (get_session_by_window (runSessionOps ops) w o = none →
      validate_session_for_window (runSessionOps ops) w o =
        .error .NotConnected) := by
  have hwf := sessionWF_run ops
  cases hl : lookupList (runSessionOps ops) (w, o) with
  | none =>
      simp only [validate_session_for_window, get_session_by_window, hl]
      refine ⟨by simp, by simp, by simp, by simp⟩
  | some c =>
      have hc := hwf ((w, o), c) (lookupList_mem _ _ _ hl)
      have h1 : c.window_label = w := hc.1
      have h2 : c.origin = o := hc.2
      simp only [validate_session_for_window, get_session_by_window, hl]
      rw [if_neg (by simp [h2]), if_neg (by simp [h1])]
      refine ⟨by simp, by simp, by simp, by simp⟩

/-- C8: a successful `update_activity_for_window` produces a strictly larger
`last_activity` than the session held before the call — even when the clock
has not advanced — and the call returns `NotConnected` when no session
exists for the `(window, origin)` key. -/
theorem update_activity_monotonic (sessions : SessionMap) (w o : String)
    (now : ℕ) :
    (∀ c, get_session_by_window sessions w o = some c →
      (update_activity_for_window sessions w o now).2 = .ok () ∧
      ∀ c', get_session_by_window
          (update_activity_for_window sessions w o now).1 w o = some c' →
        c.last_activity < c'.last_activity) ∧
    (get_session_by_window sessions w o = none →
      update_activity_for_window sessions w o now =
        (sessions, .error .NotConnected)) := by
  constructor
  · intro c hc
    simp only [get_session_by_window] at hc
    constructor
    · simp only [update_activity_for_window, hc]
    · intro c' hc'
      simp only [update_activity_for_window, hc, get_session_by_window,
        lookupList_insert_self] at hc'
      injection hc' with hc'
      subst hc'
      show c.last_activity < max now (c.last_activity + 1)
      exact lt_of_lt_of_le (Nat.lt_succ_self _) (le_max_right _ _)
  · intro h
    simp only [get_session_by_window] at h
    simp only [update_activity_for_window, h]

/-- Witness for C8: updating a session whose `last_activity` equals the
current clock still strictly increases it, and a missing key yields
`NotConnected`. -/
theorem update_activity_monotonic_witness :
    (update_activity_for_window
      [(("w1", "https://example.org"),
        ⟨"w1", "https://example.org", none, none, ["0xabc"], 5, 5⟩)]
      "w1" "https://example.org" 5).2 = .ok () ∧
    update_activity_for_window [] "w1" "https://example.org" 5 =
      ([], .error .NotConnected) := by
  constructor
  · exact ((update_activity_monotonic
      [(("w1", "https://example.org"),
        ⟨"w1", "https://example.org", none, none, ["0xabc"], 5, 5⟩)]
      "w1" "https://example.org" 5).1
      ⟨"w1", "https://example.org", none, none, ["0xabc"], 5, 5⟩ rfl).1
  · exact (update_activity_monotonic [] "w1" "https://example.org" 5).2 rfl

/-! ## Approval queue (`dapp/approval.rs`) -/

/-- Rust `ApprovalId` (a UUID string in the source). -/
abbrev ApprovalId : Type := String

/-- Rust `ApprovalRequestType`: tagged union of approval-request subtypes. -/
inductive ApprovalRequestType : Type
  | Connection (origin : String)
  | Transaction (origin «from» «to» value : String) (gas_limit : Option ℕ)
      (gas_price : Option String) (data : Option String)
  | PersonalSign (origin address message : String)
  | SignTypedData (origin address typed_data : String)
  | WatchAsset (origin asset_type address symbol : String) (decimals : ℕ)
      (image : Option String)
  | SwitchNetwork (origin : String) (chain_id : ℕ)
  | AddNetwork (origin : String) (chain_id : ℕ) (chain_name rpc_url : String)
      (block_explorer_url : Option String)
  deriving DecidableEq, Repr

/-- Rust `ApprovalRequest`. -/
structure ApprovalRequest : Type where
  id : ApprovalId
  window_label : String
  request_type : ApprovalRequestType
  created_at : ℕ
  timeout : ℕ
  deriving DecidableEq, Repr

/-- Rust `ApprovalResponse` (`serde_json::Value` payloads kept abstract as
strings; the rejection paths only ever attach a fixed error object). -/
structure ApprovalResponse : Type where
  id : ApprovalId
  approved : Bool
  data : Option String
  deriving DecidableEq, Repr

/-- Rust `PendingApproval`: a queued request plus its creation instant. The
oneshot `response_tx` channel is modelled by the list of delivered
`ApprovalResponse`s each operation returns: a response with `id = k` is a
send on the channel owned by the pending entry keyed `k`. -/
structure PendingApproval : Type where
  request : ApprovalRequest
  created : ℕ
  deriving DecidableEq, Repr

/-- The `ApprovalQueue`'s `pending` map. -/
abbrev ApprovalMap : Type := List (ApprovalId × PendingApproval)

/-- Rust `ApprovalQueue::add_request`: reject when ≥ 10 requests are pending,
otherwise insert a new pending entry (the fresh UUID is passed in as `id`;
`created_at` and `created` both read the current clock `now`). -/
def add_request (pending : ApprovalMap) (id : ApprovalId)
    (window_label : String) (request_type : ApprovalRequestType) (now : ℕ) :
    ApprovalMap × Except WalletError ApprovalId :=
  if pending.length ≥ 10 then
    (pending, .error (.Custom "Approval queue is full"))
  else
    (insertList pending id
      { request :=
          { id := id, window_label := window_label,
            request_type := request_type, created_at := now, timeout := 300 }
        created := now },
     .ok id)

/-- Rust `ApprovalQueue::respond`: remove the pending entry keyed by the
response's id and deliver the response on its channel; not-found error when
no such entry is pending. -/
def respond (pending : ApprovalMap) (response : ApprovalResponse) :
    ApprovalMap × List ApprovalResponse × Except WalletError Unit :=
  match lookupList pending response.id with
  | some _ => (eraseList pending response.id, [response], .ok ())
  | none => (pending, [], .error (.Custom "Approval request not found"))

/-- Rust `ApprovalQueue::cancel`: remove the pending entry and deliver a
rejection `{id, approved: false, data: None}`. -/
def cancel (pending : ApprovalMap) (id : ApprovalId) :
    ApprovalMap × List ApprovalResponse × Except WalletError Unit :=
  match lookupList pending id with
  | some _ =>
      (eraseList pending id, [{ id := id, approved := false, data := none }],
       .ok ())
  | none => (pending, [], .error (.Custom "Approval request not found"))

/-- Whether a pending approval has outlived its timeout
(`approval.created.elapsed() > approval.request.timeout`). -/
def approvalExpired (now : ℕ) (e : ApprovalId × PendingApproval) : Bool :=
  decide (e.2.request.timeout < now - e.2.created)

/-- Rust `ApprovalQueue::cleanup_expired`: remove every expired request and
deliver a timeout rejection to each. -/
def cleanup_expired (pending : ApprovalMap) (now : ℕ) :
    ApprovalMap × List ApprovalResponse :=
  (pending.filter (fun e => ! approvalExpired now e),
   (pending.filter (approvalExpired now)).map
     (fun e => { id := e.1, approved := false, data := some "Request timeout" }))

/-- Rust `ApprovalQueue::clear_all`: drain the map, delivering a rejection to
every pending request. -/
def approvals_clear_all (pending : ApprovalMap) :
    ApprovalMap × List ApprovalResponse :=
  ([], pending.map
    (fun e => { id := e.1, approved := false, data := some "Queue cleared" }))

/-- Whether a pending approval belongs to the given window. -/
def approvalForWindow (window_label : String)
    (e : ApprovalId × PendingApproval) : Bool :=
  decide (e.2.request.window_label = window_label)

/-- Rust `ApprovalQueue::clear_for_window`: remove every pending request of the
given window and deliver a "Window closed" rejection to each. -/
def clear_for_window (pending : ApprovalMap) (window_label : String) :
    ApprovalMap × List ApprovalResponse :=
  (pending.filter (fun e => ! approvalForWindow window_label e),
   (pending.filter (approvalForWindow window_label)).map
     (fun e => { id := e.1, approved := false, data := some "Window closed" }))

/-- One `ApprovalQueue` operation. -/
inductive ApprovalOp : Type
  | addOp (id : ApprovalId) (window_label : String)
      (request_type : ApprovalRequestType) (now : ℕ)
  | respondOp (response : ApprovalResponse)
  | cancelOp (id : ApprovalId)
  | cleanupOp (now : ℕ)
  | clearWindowOp (window_label : String)
  | clearAllOp

/-- Apply one queue operation; the second component is the list of
responses delivered by that operation. -/
def applyApprovalOp (pending : ApprovalMap) :
    ApprovalOp → ApprovalMap × List ApprovalResponse
  | .addOp id w rt now => ((add_request pending id w rt now).1, [])
  | .respondOp r => ((respond pending r).1, (respond pending r).2.1)
  | .cancelOp id => ((cancel pending id).1, (cancel pending id).2.1)
  | .cleanupOp now => cleanup_expired pending now
  | .clearWindowOp w => clear_for_window pending w
  | .clearAllOp => approvals_clear_all pending

/-- Run a list of queue operations, concatenating all delivered responses. -/
def runApprovalOps (pending : ApprovalMap) :
    List ApprovalOp → ApprovalMap × List ApprovalResponse
  | [] => (pending, [])
  | op :: rest =>
      ((runApprovalOps (applyApprovalOp pending op).1 rest).1,
       (applyApprovalOp pending op).2
         ++ (runApprovalOps (applyApprovalOp pending op).1 rest).2)

/-- Whether an operation is an `add_request` reusing the tracked id
(impossible in the source, which generates a fresh UUID v4 per call). -/
def opAddsId (id : ApprovalId) : ApprovalOp → Bool
  | .addOp id2 _ _ _ => decide (id2 = id)
  | _ => false

/-- Number of pending entries keyed by `id`. -/
def countKeys (id : ApprovalId) (pending : ApprovalMap) : ℕ :=
  pending.countP (fun e => decide (e.1 = id))

/-- Number of delivered responses addressed to the channel of `id`. -/
def countResp (id : ApprovalId) (responses : List ApprovalResponse) : ℕ :=
  responses.countP (fun r => decide (r.id = id))

/-! ## Counting lemmas for delivery accounting -/

lemma countP_filter_add {α : Type} (l : List α) (p q : α → Bool) :
    (l.filter q).countP p + (l.filter (fun x => ! q x)).countP p = l.countP p := by
  induction l with
  | nil => simp
  | cons a t ih =>
      by_cases hq : q a <;> by_cases hp : p a <;>
        simp [List.filter_cons, List.countP_cons, hq, hp] <;> omega

lemma lookupList_eq_none_iff {κ β : Type} [DecidableEq κ] (m : List (κ × β))
    (k : κ) : lookupList m k = none ↔ k ∉ m.map Prod.fst := by
  induction m with
  | nil => simp [lookupList]
  | cons e rest ih =>
      obtain ⟨k', v⟩ := e
      by_cases hk : k' = k
      · subst hk; simp [lookupList]
      · rw [lookupList, if_neg hk, ih]
        simp only [List.map_cons, List.mem_cons, not_or]
        constructor
        · intro hn
          exact ⟨fun e => hk e.symm, hn⟩
        · intro hn
          exact hn.2

lemma countKeys_eq_zero (pending : ApprovalMap) (id : ApprovalId)
    (h : lookupList pending id = none) : countKeys id pending = 0 := by
  rw [lookupList_eq_none_iff] at h
  unfold countKeys
  rw [List.countP_eq_zero]
  intro e he hc
  exact h (by
    simp only [decide_eq_true_eq] at hc
    exact hc ▸ List.mem_map_of_mem Prod.fst he)

lemma countKeys_pos (pending : ApprovalMap) (id : ApprovalId)
    (p : PendingApproval) (h : lookupList pending id = some p) :
    1 ≤ countKeys id pending := by
  unfold countKeys
  rw [Nat.succ_le, List.countP_pos_iff]
  exact ⟨(id, p), lookupList_mem _ _ _ h, by simp⟩

lemma countKeys_le_one (pending : ApprovalMap) (id : ApprovalId)
    (hnd : (pending.map Prod.fst).Nodup) : countKeys id pending ≤ 1 := by
  induction pending with
  | nil => simp [countKeys]
  | cons e rest ih =>
      simp only [List.map_cons, List.nodup_cons] at hnd
      by_cases hk : e.1 = id
      · have hz : countKeys id rest = 0 := by
          apply countKeys_eq_zero
          rw [lookupList_eq_none_iff]
          exact hk ▸ hnd.1
        unfold countKeys at hz ⊢
        rw [List.countP_cons, hz]
        simp [hk]
      · have hr := ih hnd.2
        unfold countKeys at hr ⊢
        rw [List.countP_cons]
        simp [hk]
        exact hr

lemma countKeys_filter_keep (pending : ApprovalMap)
    (id id2 : ApprovalId) (h : id ≠ id2) :
    countKeys id (pending.filter (fun e => decide (e.1 ≠ id2)))
      = countKeys id pending := by
  unfold countKeys
  rw [List.countP_filter]
  apply List.countP_congr
  intro e _
  by_cases he : e.1 = id
  · simp [he, h]
  · simp [he]

lemma countKeys_erase_self (pending : ApprovalMap) (id : ApprovalId) :
    countKeys id (eraseList pending id) = 0 := by
  unfold countKeys eraseList
  rw [List.countP_filter, List.countP_eq_zero]
  intro e _
  by_cases he : e.1 = id <;> simp [he]

lemma countKeys_insert_ne (pending : ApprovalMap) (id id2 : ApprovalId)
    (v : PendingApproval) (h : id ≠ id2) :
    countKeys id (insertList pending id2 v) = countKeys id pending := by
  have h2 : ¬ (id2 = id) := fun e => h e.symm
  unfold insertList
  show countKeys id ((id2, v) :: _) = _
  unfold countKeys
  rw [List.countP_cons]
  simp only [h2, decide_eq_false_iff_not, if_neg (by simp : ¬ (false = true)), Nat.add_zero]
  exact countKeys_filter_keep pending id id2 h

/-- Per-operation delivery accounting: one queue operation delivers
`countResp` responses on `id`'s channel and leaves `countKeys` entries for
`id`; their sum never exceeds the entries for `id` beforehand. -/
lemma approvalOp_delivery_bound (pending : ApprovalMap) (op : ApprovalOp)
    (id : ApprovalId) (h : opAddsId id op = false) :
    countResp id (applyApprovalOp pending op).2
        + countKeys id (applyApprovalOp pending op).1
      ≤ countKeys id pending := by
  cases op with
  | addOp id2 w rt now =>
      simp only [opAddsId, decide_eq_false_iff_not] at h
      simp only [applyApprovalOp, add_request]
      by_cases hf : pending.length ≥ 10
      · simp [hf, countResp]
      · simp only [hf, if_neg, if_false]
        have := countKeys_insert_ne pending id id2
          { request :=
              { id := id2, window_label := w, request_type := rt,
                created_at := now, timeout := 300 }
            created := now } (fun e => h e.symm)
        simp [countResp, this]
  | respondOp r =>
      simp only [applyApprovalOp, respond]
      cases hl : lookupList pending r.id with
      | some p =>
          by_cases hid : r.id = id
          · subst hid
            have h1 := countKeys_erase_self pending r.id
            have h2 := countKeys_pos pending r.id p hl
            simp [countResp, h1]
            omega
          · have h1 : countKeys id (eraseList pending r.id)
                = countKeys id pending :=
              countKeys_filter_keep pending id r.id (Ne.symm hid)
            simp [countResp, h1, hid]
      | none => simp [countResp]
  | cancelOp cid =>
      simp only [applyApprovalOp, cancel]
      cases hl : lookupList pending cid with
      | some p =>
          by_cases hid : cid = id
          · subst hid
            have h1 := countKeys_erase_self pending cid
            have h2 := countKeys_pos pending cid p hl
            simp [countResp, h1]
            omega
          · have h1 : countKeys id (eraseList pending cid)
                = countKeys id pending :=
              countKeys_filter_keep pending id cid (Ne.symm hid)
            simp [countResp, h1, hid]
      | none => simp [countResp]
  | cleanupOp now =>
      simp only [applyApprovalOp, cleanup_expired]
      have hm : countResp id ((pending.filter (approvalExpired now)).map
          (fun e => ({ id := e.1, approved := false,
                       data := some "Request timeout" } : ApprovalResponse)))
          = countKeys id (pending.filter (approvalExpired now)) := by
        unfold countResp countKeys
        rw [List.countP_map]
        rfl
      rw [hm]
      exact le_of_eq (countP_filter_add pending _ (approvalExpired now))
  | clearWindowOp w =>
      simp only [applyApprovalOp, clear_for_window]
      have hm : countResp id ((pending.filter (approvalForWindow w)).map
          (fun e => ({ id := e.1, approved := false,
                       data := some "Window closed" } : ApprovalResponse)))
          = countKeys id (pending.filter (approvalForWindow w)) := by
        unfold countResp countKeys
        rw [List.countP_map]
        rfl
      rw [hm]
      exact le_of_eq (countP_filter_add pending _ (approvalForWindow w))
  | clearAllOp =>
      simp only [applyApprovalOp, approvals_clear_all]
      have hm : countResp id (pending.map
          (fun e => ({ id := e.1, approved := false,
                       data := some "Queue cleared" } : ApprovalResponse)))
          = countKeys id pending := by
        unfold countResp countKeys
        rw [List.countP_map]
        rfl
      simp [hm, countKeys]

/-- Trace-level delivery accounting. -/
lemma run_delivery_bound (ops : List ApprovalOp) (pending : ApprovalMap)
    (id : ApprovalId) (h : ∀ op ∈ ops, opAddsId id op = false) :
    countResp id (runApprovalOps pending ops).2
        + countKeys id (runApprovalOps pending ops).1
      ≤ countKeys id pending := by
  induction ops generalizing pending with
  | nil => simp [runApprovalOps, countResp]
  | cons op rest ih =>
      have h1 := approvalOp_delivery_bound pending op id
        (h op (List.mem_cons_self op rest))
      have h2 := ih (applyApprovalOp pending op).1
        (fun o ho => h o (List.mem_cons_of_mem op ho))
      simp only [runApprovalOps, countResp, List.countP_append] at *
      omega

lemma eraseList_eq_self_of_lookup_none {κ β : Type} [DecidableEq κ]
    (m : List (κ × β)) (k : κ) (h : lookupList m k = none) :
    eraseList m k = m := by
  rw [lookupList_eq_none_iff] at h
  unfold eraseList
  apply List.filter_eq_self.mpr
  intro e he
  simp only [decide_eq_true_eq]
  intro hc
  exact h (hc ▸ List.mem_map_of_mem Prod.fst he)

lemma eraseList_eq_filter_not {κ β : Type} [DecidableEq κ]
    (m : List (κ × β)) (k : κ) :
    eraseList m k = m.filter (fun e => ! decide (e.1 = k)) := by
  unfold eraseList
  apply List.filter_congr
  intro e _
  by_cases h : e.1 = k <;> simp [h]

lemma length_erase_of_lookup (m : ApprovalMap) (k : ApprovalId)
    (v : PendingApproval) (hnd : (m.map Prod.fst).Nodup)
    (h : lookupList m k = some v) :
    (eraseList m k).length + 1 = m.length := by
  have h1 : countKeys k m ≤ 1 := countKeys_le_one m k hnd
  have h2 : 1 ≤ countKeys k m := countKeys_pos m k v h
  have h4 : (m.filter (fun e => decide (e.1 = k))).length = 1 := by
    rw [← List.countP_eq_length_filter]
    unfold countKeys at h1 h2
    omega
  have hpart := countP_filter_add m (fun _ => true)
    (fun e => decide (e.1 = k))
  simp only [List.countP_true] at hpart
  rw [eraseList_eq_filter_not, ← hpart, h4]
  omega

/-- Every queue operation keeps the pending count at or below 10. -/
lemma applyApprovalOp_length_le (pending : ApprovalMap) (op : ApprovalOp)
    (h : pending.length ≤ 10) : (applyApprovalOp pending op).1.length ≤ 10 := by
  cases op with
  | addOp id w rt now =>
      simp only [applyApprovalOp, add_request]
      by_cases hf : pending.length ≥ 10
      · simpa [hf] using h
      · simp only [hf, if_false]
        have h9 : pending.length ≤ 9 := by omega
        have := List.length_filter_le
          (fun p => decide (p.1 ≠ id)) pending
        simp only [insertList, List.length_cons]
        omega
  | respondOp r =>
      simp only [applyApprovalOp, respond]
      cases hl : lookupList pending r.id with
      | some p =>
          have := List.length_filter_le (fun e => decide (e.1 ≠ r.id)) pending
          simp only [eraseList]
          omega
      | none => exact h
  | cancelOp id =>
      simp only [applyApprovalOp, cancel]
      cases hl : lookupList pending id with
      | some p =>
          have := List.length_filter_le (fun e => decide (e.1 ≠ id)) pending
          simp only [eraseList]
          omega
      | none => exact h
  | cleanupOp now =>
      have := List.length_filter_le
        (fun e => ! approvalExpired now e) pending
      simp only [applyApprovalOp, cleanup_expired]
      omega
  | clearWindowOp w =>
      have := List.length_filter_le
        (fun e => ! approvalForWindow w e) pending
      simp only [applyApprovalOp, clear_for_window]
      omega
  | clearAllOp => simp [applyApprovalOp, approvals_clear_all]

lemma runApprovalOps_length_le (ops : List ApprovalOp) (pending : ApprovalMap)
    (h : pending.length ≤ 10) : (runApprovalOps pending ops).1.length ≤ 10 := by
  induction ops generalizing pending with
  | nil => simpa [runApprovalOps]
  | cons op rest ih =>
      simp only [runApprovalOps]
      exact ih _ (applyApprovalOp_length_le pending op h)

/-- C4: single delivery. Over any operation sequence that never re-issues a
pending id (UUIDs are fresh in the source), at most one response is ever
delivered on a given request's channel; `respond` on a pending id delivers
exactly that response and removes the entry, `cancel` delivers exactly one
rejection, and a second `respond`/`cancel` on the already-resolved id
returns the not-found error and delivers nothing. -/
theorem approval_single_delivery :
    (∀ (pending : ApprovalMap) (ops : List ApprovalOp) (id : ApprovalId),
      (pending.map Prod.fst).Nodup → (∀ op ∈ ops, opAddsId id op = false) →
      countResp id (runApprovalOps pending ops).2 ≤ 1) ∧
    (∀ (pending : ApprovalMap) (r : ApprovalResponse) (p : PendingApproval),
      lookupList pending r.id = some p →
      respond pending r = (eraseList pending r.id, [r], .ok ()) ∧
      respond (eraseList pending r.id) r =
        (eraseList pending r.id, [],
         .error (.Custom "Approval request not found")) ∧
      cancel (eraseList pending r.id) r.id =
        (eraseList pending r.id, [],
         .error (.Custom "Approval request not found"))) ∧
    (∀ (pending : ApprovalMap) (r : ApprovalResponse),
      lookupList pending r.id = none →
      respond pending r =
        (pending, [], .error (.Custom "Approval request not found"))) ∧
    (∀ (pending : ApprovalMap) (id : ApprovalId) (p : PendingApproval),
      lookupList pending id = some p →
      cancel pending id = (eraseList pending id,
        [{ id := id, approved := false, data := none }], .ok ())) ∧
    (∀ (pending : ApprovalMap) (id : ApprovalId),
      lookupList pending id = none →
      cancel pending id =
        (pending, [], .error (.Custom "Approval request not found"))) := by
  refine ⟨?_, ?_, ?_, ?_, ?_⟩
  · intro pending ops id hnd hfresh
    have h1 := run_delivery_bound ops pending id hfresh
    have h2 := countKeys_le_one pending id hnd
    omega
  · intro pending r p h
    refine ⟨by simp [respond, h], ?_, ?_⟩
    · simp [respond, lookupList_erase_self]
    · simp [cancel, lookupList_erase_self]
  · intro pending r h
    simp [respond, h]
  · intro pending id p h
    simp [cancel, h]
  · intro pending id h
    simp [cancel, h]

/-- Witness for C4: a two-request queue; responding to one delivers once,
then the second respond/cancel on the same id fails, and a two-operation
trace delivers at most one response to that id. -/
theorem approval_single_delivery_witness :
    countResp "id1" (runApprovalOps
      [("id1", ⟨⟨"id1", "w1", .Connection "https://example.org", 0, 300⟩, 0⟩)]
      [.respondOp ⟨"id1", true, none⟩, .cancelOp "id1"]).2 ≤ 1 ∧
    respond
      [("id1", ⟨⟨"id1", "w1", .Connection "https://example.org", 0, 300⟩, 0⟩)]
      ⟨"id1", true, none⟩ =
      ([], [⟨"id1", true, none⟩], .ok ()) ∧
    cancel ([] : ApprovalMap) "id1" =
      ([], [], .error (.Custom "Approval request not found")) := by
  refine ⟨?_, ?_, ?_⟩
  · exact approval_single_delivery.1
      [("id1", ⟨⟨"id1", "w1", .Connection "https://example.org", 0, 300⟩, 0⟩)]
      [.respondOp ⟨"id1", true, none⟩, .cancelOp "id1"] "id1"
      (by simp) (by intro op hop; fin_cases hop <;> rfl)
  · have := (approval_single_delivery.2.1
      [("id1", ⟨⟨"id1", "w1", .Connection "https://example.org", 0, 300⟩, 0⟩)]
      ⟨"id1", true, none⟩
      ⟨⟨"id1", "w1", .Connection "https://example.org", 0, 300⟩, 0⟩ rfl).1
    simpa [eraseList] using this
  · exact approval_single_delivery.2.2.2.2 [] "id1" rfl

/-- C5: the approval queue bound. `add_request` fails exactly when 10 or
more requests are pending; after resolving one of exactly 10 pending
requests the next `add_request` succeeds; every state reachable from the
empty queue holds at most 10 pending requests. -/
theorem approval_queue_bound :
    (∀ (pending : ApprovalMap) (id : ApprovalId) (w : String)
        (rt : ApprovalRequestType) (now : ℕ), 10 ≤ pending.length →
      add_request pending id w rt now =
        (pending, .error (.Custom "Approval queue is full"))) ∧
    (∀ (pending : ApprovalMap) (id : ApprovalId) (w : String)
        (rt : ApprovalRequestType) (now : ℕ), pending.length < 10 →
      (add_request pending id w rt now).2 = .ok id) ∧
    (∀ (pending : ApprovalMap) (r : ApprovalResponse) (p : PendingApproval)
        (id2 : ApprovalId) (w : String) (rt : ApprovalRequestType) (now : ℕ),
      (pending.map Prod.fst).Nodup → pending.length = 10 →
      lookupList pending r.id = some p →
      (respond pending r).1.length = 9 ∧
      (add_request (respond pending r).1 id2 w rt now).2 = .ok id2) ∧
    (∀ ops : List ApprovalOp, (runApprovalOps [] ops).1.length ≤ 10) := by
  refine ⟨?_, ?_, ?_, ?_⟩
  · intro pending id w rt now h
    simp [add_request, h]
  · intro pending id w rt now h
    simp [add_request, Nat.not_le.mpr h]
  · intro pending r p id2 w rt now hnd hlen h
    have h1 : (respond pending r).1 = eraseList pending r.id := by
      simp [respond, h]
    have h2 := length_erase_of_lookup pending r.id p hnd h
    have h3 : (respond pending r).1.length = 9 := by rw [h1]; omega
    refine ⟨h3, ?_⟩
    simp [add_request, h3]
  · intro ops
    exact runApprovalOps_length_le ops [] (by simp)

/-- Witness for C5: a concrete full queue of 10 requests rejects the 11th
`add_request`; the empty queue accepts; resolving one of 10 then accepts a new
request; a concrete trace stays within the bound. -/
theorem approval_queue_bound_witness :
    add_request (List.range 10 |>.map (fun n =>
        (toString n, (⟨⟨toString n, "w1", .Connection "o", 0, 300⟩, 0⟩ :
          PendingApproval))))
      "id10" "w1" (.Connection "o") 0 =
      ((List.range 10 |>.map (fun n =>
        (toString n, (⟨⟨toString n, "w1", .Connection "o", 0, 300⟩, 0⟩ :
          PendingApproval)))),
       .error (.Custom "Approval queue is full")) ∧
    (add_request [] "id0" "w1" (.Connection "o") 0).2 = .ok "id0" := by
  constructor
  · exact approval_queue_bound.1 _ "id10" "w1" (.Connection "o") 0 (by simp)
  · exact approval_queue_bound.2.1 [] "id0" "w1" (.Connection "o") 0 (by simp)

/-! ## Window-close cascade (C3) -/

lemma lookupList_filter_of_nodup {κ β : Type} [DecidableEq κ]
    (m : List (κ × β)) (pw : κ × β → Bool) (k : κ) (v : β)
    (hnd : (m.map Prod.fst).Nodup) (h : lookupList m k = some v) :
    lookupList (m.filter pw) k = if pw (k, v) then some v else none := by
  induction m with
  | nil => simp [lookupList] at h
  | cons e rest ih =>
      simp only [List.map_cons, List.nodup_cons] at hnd
      obtain ⟨k', v'⟩ := e
      by_cases hk : k' = k
      · subst hk
        simp only [lookupList, if_pos rfl] at h
        injection h with h
        subst h
        have hrest : lookupList rest k' = none := by
          rw [lookupList_eq_none_iff]; exact hnd.1
        have hfrest : lookupList (rest.filter pw) k' = none := by
          rw [lookupList_eq_none_iff] at hrest ⊢
          intro hc
          exact hrest (((List.filter_sublist rest).map Prod.fst).subset hc)
        by_cases hpw : pw (k', v')
        · rw [List.filter_cons]
          simp [lookupList, hpw]
        · rw [List.filter_cons]
          simp only [hpw, Bool.false_eq_true, if_false]
          exact hfrest
      · simp only [lookupList, if_neg hk] at h
        rw [List.filter_cons]
        by_cases hpw : pw (k', v')
        · simp only [hpw, if_true]
          rw [lookupList, if_neg hk]
          exact ih hnd.2 h
        · simp only [hpw, Bool.false_eq_true, if_false]
          exact ih hnd.2 h

lemma get_session_remove_all_self (sessions : SessionMap) (w o : String) :
    get_session_by_window (remove_all_sessions_for_window sessions w) w o
      = none := by
  rw [get_session_by_window, lookupList_eq_none_iff]
  intro hc
  simp only [List.mem_map] at hc
  obtain ⟨e, he, hk⟩ := hc
  have hp := List.of_mem_filter he
  rw [hk] at hp
  simp at hp

lemma get_session_remove_all_other (sessions : SessionMap) (w w' o : String)
    (h : w' ≠ w) :
    get_session_by_window (remove_all_sessions_for_window sessions w) w' o =
      get_session_by_window sessions w' o := by
  induction sessions with
  | nil => rfl
  | cons e rest ih =>
      simp only [remove_all_sessions_for_window, get_session_by_window,
        List.filter_cons] at ih ⊢
      by_cases hp : e.1.1 = w
      · have hd : (decide (e.1.1 ≠ w)) = false := by simp [hp]
        rw [hd]
        simp only [Bool.false_eq_true, if_false]
        have hne : e.1 ≠ (w', o) := by
          intro hc
          rw [hc] at hp
          exact h hp
        rw [lookupList, if_neg hne]
        exact ih
      · have hd : (decide (e.1.1 ≠ w)) = true := by simp [hp]
        rw [hd]
        simp only [if_true]
        by_cases hke : e.1 = (w', o)
        · rw [lookupList, lookupList, if_pos hke, if_pos hke]
        · rw [lookupList, lookupList, if_neg hke, if_neg hke]
          exact ih

lemma countResp_map_keys (l : ApprovalMap) (id : ApprovalId)
    (f : ApprovalId × PendingApproval → ApprovalResponse)
    (hf : ∀ e, (f e).id = e.1) :
    countResp id (l.map f) = countKeys id l := by
  unfold countResp countKeys
  rw [List.countP_map]
  apply List.countP_congr
  intro e _
  simp [Function.comp, hf e]

/-- C3: the window-close cascade. After
`remove_all_sessions_for_window w`, `get_session_by_window (w, o)` is `None`
for every origin `o` while every other window's sessions are untouched;
after `clear_for_window w`, every approval that was pending for `w` has
received exactly one response — a rejection (`approved = false`) — and
every other window's pending approvals are unchanged and receive nothing. -/
theorem window_close_cascade (sessions : SessionMap) (pending : ApprovalMap)
    (w : String) (hnd : (pending.map Prod.fst).Nodup) :
    (∀ o, get_session_by_window
        (remove_all_sessions_for_window sessions w) w o = none) ∧
    (∀ w' o, w' ≠ w →
      get_session_by_window (remove_all_sessions_for_window sessions w) w' o =
        get_session_by_window sessions w' o) ∧
    (∀ r ∈ (clear_for_window pending w).2, r.approved = false) ∧
    (∀ id p, lookupList pending id = some p → p.request.window_label = w →
      lookupList (clear_for_window pending w).1 id = none ∧
      countResp id (clear_for_window pending w).2 = 1) ∧
    (∀ id p, lookupList pending id = some p → p.request.window_label ≠ w →
      lookupList (clear_for_window pending w).1 id = some p ∧
      countResp id (clear_for_window pending w).2 = 0) := by
  refine ⟨fun o => get_session_remove_all_self sessions w o,
    fun w' o h => get_session_remove_all_other sessions w w' o h, ?_, ?_, ?_⟩
  · intro r hr
    simp only [clear_for_window, List.mem_map] at hr
    obtain ⟨e, _, he⟩ := hr
    rw [← he]
  · intro id p h hw
    have hfw : approvalForWindow w (id, p) = true := by
      simp [approvalForWindow, hw]
    constructor
    · have := lookupList_filter_of_nodup pending
        (fun e => ! approvalForWindow w e) id p hnd h
      simp only [clear_for_window]
      rw [this]
      simp [hfw]
    · have hcount : countResp id (clear_for_window pending w).2
          = countKeys id (pending.filter (approvalForWindow w)) := by
        simp only [clear_for_window]
        exact countResp_map_keys _ id _ (fun e => rfl)
      rw [hcount]
      have hl : lookupList (pending.filter (approvalForWindow w)) id
          = some p := by
        have := lookupList_filter_of_nodup pending
          (approvalForWindow w) id p hnd h
        rw [this, if_pos hfw]
      have hnd2 : ((pending.filter (approvalForWindow w)).map Prod.fst).Nodup :=
        hnd.sublist ((List.filter_sublist pending).map Prod.fst)
      have h1 := countKeys_pos _ id p hl
      have h2 := countKeys_le_one _ id hnd2
      omega
  · intro id p h hw
    have hfw : approvalForWindow w (id, p) = false := by
      simp [approvalForWindow, hw]
    constructor
    · have := lookupList_filter_of_nodup pending
        (fun e => ! approvalForWindow w e) id p hnd h
      simp only [clear_for_window]
      rw [this]
      simp [hfw]
    · have hcount : countResp id (clear_for_window pending w).2
          = countKeys id (pending.filter (approvalForWindow w)) := by
        simp only [clear_for_window]
        exact countResp_map_keys _ id _ (fun e => rfl)
      rw [hcount]
      apply countKeys_eq_zero
      have := lookupList_filter_of_nodup pending
        (approvalForWindow w) id p hnd h
      rw [this, if_neg (by simp [hfw])]

/-- Witness for C3: closing window `"w1"` with one session per window and
one pending approval per window: `w1`'s session vanishes, `w2`'s survives,
`w1`'s approval gets exactly one rejection, `w2`'s gets none. -/
theorem window_close_cascade_witness :
    get_session_by_window (remove_all_sessions_for_window
      [(("w1", "https://a.org"),
        ⟨"w1", "https://a.org", none, none, [], 0, 0⟩),
       (("w2", "https://a.org"),
        ⟨"w2", "https://a.org", none, none, [], 0, 0⟩)] "w1")
      "w1" "https://a.org" = none ∧
    get_session_by_window (remove_all_sessions_for_window
      [(("w1", "https://a.org"),
        ⟨"w1", "https://a.org", none, none, [], 0, 0⟩),
       (("w2", "https://a.org"),
        ⟨"w2", "https://a.org", none, none, [], 0, 0⟩)] "w1")
      "w2" "https://a.org" =
      some ⟨"w2", "https://a.org", none, none, [], 0, 0⟩ ∧
    countResp "id1" (clear_for_window
      [("id1", ⟨⟨"id1", "w1", .Connection "https://a.org", 0, 300⟩, 0⟩),
       ("id2", ⟨⟨"id2", "w2", .Connection "https://a.org", 0, 300⟩, 0⟩)]
      "w1").2 = 1 ∧
    countResp "id2" (clear_for_window
      [("id1", ⟨⟨"id1", "w1", .Connection "https://a.org", 0, 300⟩, 0⟩),
       ("id2", ⟨⟨"id2", "w2", .Connection "https://a.org", 0, 300⟩, 0⟩)]
      "w1").2 = 0 := by
  refine ⟨?_, ?_, ?_, ?_⟩
  · exact (window_close_cascade
      [(("w1", "https://a.org"), ⟨"w1", "https://a.org", none, none, [], 0, 0⟩),
       (("w2", "https://a.org"), ⟨"w2", "https://a.org", none, none, [], 0, 0⟩)]
      [] "w1" (by simp)).1 "https://a.org"
  · rw [(window_close_cascade
      [(("w1", "https://a.org"), ⟨"w1", "https://a.org", none, none, [], 0, 0⟩),
       (("w2", "https://a.org"), ⟨"w2", "https://a.org", none, none, [], 0, 0⟩)]
      [] "w1" (by simp)).2.1 "w2" "https://a.org" (by decide)]
    rfl
  · exact ((window_close_cascade []
      [("id1", ⟨⟨"id1", "w1", .Connection "https://a.org", 0, 300⟩, 0⟩),
       ("id2", ⟨⟨"id2", "w2", .Connection "https://a.org", 0, 300⟩, 0⟩)]
      "w1" (by simp)).2.2.2.1 "id1"
      ⟨⟨"id1", "w1", .Connection "https://a.org", 0, 300⟩, 0⟩ rfl rfl).2
  · exact ((window_close_cascade []
      [("id1", ⟨⟨"id1", "w1", .Connection "https://a.org", 0, 300⟩, 0⟩),
       ("id2", ⟨⟨"id2", "w2", .Connection "https://a.org", 0, 300⟩, 0⟩)]
      "w1" (by simp)).2.2.2.2 "id2"
      ⟨⟨"id2", "w2", .Connection "https://a.org", 0, 300⟩, 0⟩ rfl
      (by decide)).2

/-! ## Replay guard (`commands/dapp.rs`, `ProcessedRequests`) -/

/-- Rust `ProcessedRequests::mark_processed`, modelled on the post-insert
iteration order of the backing `HashSet<String>`. `iter` is the set's
contents listed in hash-iteration order after `requests.insert(id)` — any
duplicate-free ordering of the inserted set is an admissible `iter`, since
`HashSet` iteration order is arbitrary. The source then collects the first
`len - 1000` iterated ids into `to_remove` and removes them, which keeps
exactly the remaining iterated suffix. -/
def mark_processed_iter (iter : List String) : List String :=
  if iter.length > 1000 then iter.drop (iter.length - 1000) else iter

/-- Rust `ProcessedRequests::is_processed`. -/
def is_processed (requests : List String) (id : String) : Bool :=
  requests.contains id

/-- Distinct placeholder request ids of pairwise different lengths. -/
def procId (n : ℕ) : String := String.mk (List.replicate n 'a')

lemma procId_inj (n m2 : ℕ) (h : procId n = procId m2) : n = m2 := by
  unfold procId at h
  injection h with h
  have := congrArg List.length h
  simpa using this

/-- C6 counterexample at the code: inserting a 1001st id into a full
replay set can evict the *newly inserted* id rather than the oldest one,
when the hash-iteration order happens to list the new id first — the
`HashSet` has no insertion order, so "trim-from-front" trims an arbitrary
subset, not the oldest entries; only the size bound holds. -/
theorem mark_processed_evicts_newest :
    ((List.range 1000).map procId).Nodup ∧
    "x" ∉ (List.range 1000).map procId ∧
    ("x" :: (List.range 1000).map procId).length = 1001 ∧
    mark_processed_iter ("x" :: (List.range 1000).map procId) =
      (List.range 1000).map procId ∧
    is_processed
      (mark_processed_iter ("x" :: (List.range 1000).map procId)) "x" = false := by
  have hlen : ((List.range 1000).map procId).length = 1000 := by simp
  have hnd : ((List.range 1000).map procId).Nodup :=
    (List.nodup_range 1000).map_on
      (fun a _ b _ h => procId_inj a b h)
  have hx : "x" ∉ (List.range 1000).map procId := by
    intro hc
    simp only [List.mem_map] at hc
    obtain ⟨n, _, hn⟩ := hc
    have hd : List.replicate n 'a' = "x".data := by
      have := congrArg String.data hn
      simpa [procId] using this
    have hlen2 := congrArg List.length hd
    rw [List.length_replicate] at hlen2
    have hone : ("x".data).length = 1 := by decide
    rw [hone] at hlen2
    subst hlen2
    exact absurd hn (by decide)
  have hmark : mark_processed_iter ("x" :: (List.range 1000).map procId) =
      (List.range 1000).map procId := by
    unfold mark_processed_iter
    rw [if_pos (by simp [hlen])]
    simp [hlen]
  refine ⟨hnd, hx, by simp [hlen], hmark, ?_⟩
  rw [hmark]
  unfold is_processed
  rw [List.contains_eq_any_beq]
  rw [List.any_eq_false]
  intro a ha
  simp only [beq_iff_eq]
  intro hc
  exact hx (hc ▸ ha)

/-- The true half of C6: the size bound. After any `mark_processed`, at
most 1000 ids remain, whatever iteration order the `HashSet` produced. -/
lemma mark_processed_iter_length (iter : List String) :
    (mark_processed_iter iter).length ≤ max 1000 iter.length := by
  unfold mark_processed_iter
  by_cases h : iter.length > 1000
  · rw [if_pos h]
    simp only [List.length_drop]
    omega
  · rw [if_neg h]
    omega

/-! ## Request dispatcher (`commands/dapp.rs`, `dapp_request`) -/

/-- Rust `DappRequest` (params kept abstract as strings). -/
structure DappRequest : Type where
  id : String
  timestamp : ℕ
  method : String
  params : List String
  deriving DecidableEq, Repr

/-- Rust `DappError` (EIP-1193 / EIP-1474 style). -/
structure DappError : Type where
  code : ℤ
  message : String
  data : Option String
  deriving DecidableEq, Repr

/-- Rust `DappResponse`. -/
structure DappResponse : Type where
  id : String
  result : Option String
  error : Option DappError
  deriving DecidableEq, Repr

/-- The `no_auth_methods` allowlist of `dapp_request` Layer 5. -/
def no_auth_methods : List String :=
  ["eth_chainId", "net_version", "eth_blockNumber", "eth_requestAccounts",
   "eth_accounts"]

/-- Layer 3 freshness test:
`now > request.timestamp && (now - request.timestamp) > 300`. -/
def request_expired (now timestamp : ℕ) : Bool :=
  decide (timestamp < now) && decide (now - timestamp > 300)

/-- The Layer 6 `WalletError → (code, message)` table of `dapp_request`
(restricted to the modelled error variants; `Custom` falls through to the
generic `-32603` arm). -/
def dappErrorOf (e : WalletError) : ℤ × String :=
  match e with
  | .NotConnected => (4100, "Not connected")
  | .OriginMismatch => (4903, "Origin mismatch")
  | .RateLimitExceeded => (4902, "Rate limit exceeded")
  | .Custom msg => (-32603, msg)

/-- Layer 6 of `dapp_request`: invoke the `rpc_handler` (abstracted as its
result `handler`) and build the response. The returned flag records that
the method handler was invoked. Session-activity, replay-set and bucket-map
updates of the surrounding code are modelled where they occur in
`dapp_request_after_freshness` / `dapp_request`. -/
def finishRequest (sessions : SessionMap) (req : DappRequest)
    (handler : Except WalletError String) :
    DappResponse × SessionMap × Bool :=
  match handler with
  | .ok result => (⟨req.id, some result, none⟩, sessions, true)
  | .error e =>
      (⟨req.id, none, some ⟨(dappErrorOf e).1, (dappErrorOf e).2, none⟩⟩,
       sessions, true)

/-- Layers 4–6 of `dapp_request`: replay protection, session validation
for methods outside the no-auth allowlist (updating the session activity on
success), then dispatch. -/
def dapp_request_after_freshness (processed : List String)
    (sessions : SessionMap) (window_label origin : String) (req : DappRequest)
    (now : ℕ) (handler : Except WalletError String) :
    DappResponse × SessionMap × Bool :=
  if is_processed processed req.id then
    (⟨req.id, none, some ⟨4905, "Duplicate request ID", none⟩⟩, sessions, false)
  else if no_auth_methods.contains req.method then
    finishRequest sessions req handler
  else
    match validate_session_for_window sessions window_label origin with
    | .error e =>
        (⟨req.id, none, some ⟨4100,
            "Not connected. Please call eth_requestAccounts first. Error: "
              ++ e.display, none⟩⟩,
         sessions, false)
    | .ok () =>
        finishRequest
          ((update_activity_for_window sessions window_label origin now).1)
          req handler

/-- Rust `dapp_request` Layers 2–6 (Layer 1 identity resolution is performed by
the Tauri window system and is represented by the trusted `window_label` /
`origin` arguments). `rlNow` is the rate-limiter's `Instant` clock, `now`
the unix-seconds clock. -/
def dapp_request (buckets : BucketMap) (processed : List String)
    (sessions : SessionMap) (window_label origin : String) (req : DappRequest)
    (rlNow : ℚ) (now : ℕ) (handler : Except WalletError String) :
    DappResponse × SessionMap × Bool :=
  if ((check_limit buckets (window_label ++ ":" ++ origin) req.method
      rlNow).2).isSome then
    (⟨req.id, none, some ⟨4902, WalletError.RateLimitExceeded.display, none⟩⟩,
     sessions, false)
  else if request_expired now req.timestamp then
    (⟨req.id, none, some ⟨4904, "Request expired (> 5 minutes old)", none⟩⟩,
     sessions, false)
  else
    dapp_request_after_freshness processed sessions window_label origin req
      now handler

/-- C2: authorization layer. For a request that passes rate limiting,
freshness and replay checks: a method on the no-auth allowlist skips
session validation entirely (the handler runs, the session map is
untouched, and the response does not depend on the session map at all); any
other method whose `validate_session_for_window` fails yields the 4100
"call eth_requestAccounts first" error and the handler is never invoked. -/
theorem dapp_request_authorization (buckets : BucketMap)
    (processed : List String) (sessions : SessionMap)
    (window_label origin : String) (req : DappRequest) (rlNow : ℚ) (now : ℕ)
    (handler : Except WalletError String)
    (hrl : (check_limit buckets (window_label ++ ":" ++ origin) req.method
      rlNow).2 = none)
    (hfresh : request_expired now req.timestamp = false)
    (hreplay : is_processed processed req.id = false) :
    (no_auth_methods.contains req.method = true →
      (dapp_request buckets processed sessions window_label origin req rlNow
          now handler)
        = (finishRequest sessions req handler) ∧
      (dapp_request buckets processed sessions window_label origin req rlNow
          now handler).2.2 = true ∧
      (dapp_request buckets processed sessions window_label origin req rlNow
          now handler).2.1 = sessions ∧
      ∀ sessions2 : SessionMap,
        (dapp_request buckets processed sessions2 window_label origin req
          rlNow now handler).1
          = (dapp_request buckets processed sessions window_label origin req
            rlNow now handler).1) ∧
    (no_auth_methods.contains req.method = false →
      ∀ e, validate_session_for_window sessions window_label origin =
          .error e →
        dapp_request buckets processed sessions window_label origin req rlNow
            now handler
          = (⟨req.id, none, some ⟨4100,
              "Not connected. Please call eth_requestAccounts first. Error: "
                ++ e.display, none⟩⟩,
             sessions, false)) := by
  have hbase : ∀ s : SessionMap,
      dapp_request buckets processed s window_label origin req rlNow now
          handler
        = dapp_request_after_freshness processed s window_label origin req
          now handler := by
    intro s
    unfold dapp_request
    rw [hrl]
    simp only [Option.isSome_none, Bool.false_eq_true, if_false, hfresh]
  constructor
  · intro hmeth
    have hfin : ∀ s : SessionMap,
        dapp_request buckets processed s window_label origin req rlNow now
            handler
          = finishRequest s req handler := by
      intro s
      rw [hbase s]
      unfold dapp_request_after_freshness
      rw [hreplay]
      simp only [Bool.false_eq_true, if_false, hmeth, if_true]
    refine ⟨hfin sessions, ?_, ?_, ?_⟩
    · rw [hfin sessions]
      cases handler <;> rfl
    · rw [hfin sessions]
      cases handler <;> rfl
    · intro sessions2
      rw [hfin sessions, hfin sessions2]
      cases handler <;> rfl
  · intro hmeth e he
    rw [hbase sessions]
    unfold dapp_request_after_freshness
    rw [hreplay]
    simp only [Bool.false_eq_true, if_false, hmeth, he]

/-- C9: freshness layer. The dispatcher's 4904 rejection fires exactly when
the request timestamp is strictly more than 300 seconds in the past; any
request stamped at or after the current clock always passes the freshness
check, and a fresh request proceeds to the replay check (Layers 4–6). -/
theorem dapp_request_freshness (buckets : BucketMap)
    (processed : List String) (sessions : SessionMap)
    (window_label origin : String) (req : DappRequest) (rlNow : ℚ) (now : ℕ)
    (handler : Except WalletError String)
    (hrl : (check_limit buckets (window_label ++ ":" ++ origin) req.method
      rlNow).2 = none) :
    (request_expired now req.timestamp = true ↔ req.timestamp + 300 < now) ∧
    (now ≤ req.timestamp → request_expired now req.timestamp = false) ∧
    (request_expired now req.timestamp = true →
      dapp_request buckets processed sessions window_label origin req rlNow
          now handler
        = (⟨req.id, none,
            some ⟨4904, "Request expired (> 5 minutes old)", none⟩⟩,
           sessions, false)) ∧
    (request_expired now req.timestamp = false →
      dapp_request buckets processed sessions window_label origin req rlNow
          now handler
        = dapp_request_after_freshness processed sessions window_label origin
          req now handler) := by
  refine ⟨?_, ?_, ?_, ?_⟩
  · unfold request_expired
    rw [Bool.and_eq_true, decide_eq_true_eq, decide_eq_true_eq]
    omega
  · intro h
    unfold request_expired
    rw [Bool.and_eq_false_iff]
    left
    rw [decide_eq_false_iff_not]
    omega
  · intro h
    unfold dapp_request
    rw [hrl]
    simp only [Option.isSome_none, Bool.false_eq_true, if_false, h, if_true]
  · intro h
    unfold dapp_request
    rw [hrl]
    simp only [Option.isSome_none, Bool.false_eq_true, if_false, h]

lemma check_limit_fresh_none (origin method : String) (B : ℕ)
    (hB : ((B : ℕ) : ℚ) = (get_config method).burst_size)
    (hM : (get_config method).burst_size < (get_config method).per_minute)
    (hH : (get_config method).burst_size < (get_config method).per_hour)
    (hB0 : 0 < B) :
    (check_limit [] origin method 0).2 = none := by
  have h0 := (check_limit_burst_profile origin method 0 B hB hM hH).1 0 hB0
  unfold checkOk checkRun at h0
  exact Option.isNone_iff_eq_none.mp h0

lemma get_config_chainId : get_config "eth_chainId" = RateLimitConfig.default :=
  by decide

lemma get_config_personalSign :
    get_config "personal_sign" = RateLimitConfig.sensitive := by decide

/-- Witness for C2: on a fresh gateway, `eth_chainId` reaches the handler
with no session, while `personal_sign` with no session is rejected with the
4100 "call eth_requestAccounts first" error. -/
theorem dapp_request_authorization_witness :
    (dapp_request [] [] [] "w1" "https://example.org"
        ⟨"r1", 100, "eth_chainId", []⟩ 0 100 (.ok "0x171")).2.2 = true ∧
    dapp_request [] [] [] "w1" "https://example.org"
        ⟨"r2", 100, "personal_sign", []⟩ 0 100 (.ok "sig")
      = (⟨"r2", none, some ⟨4100,
          "Not connected. Please call eth_requestAccounts first. Error: "
            ++ WalletError.NotConnected.display, none⟩⟩,
         [], false) := by
  have hrl1 : (check_limit [] ("w1" ++ ":" ++ "https://example.org")
      "eth_chainId" 0).2 = none :=
    check_limit_fresh_none _ _ 20
      (by rw [get_config_chainId]; norm_num [RateLimitConfig.default])
      (by rw [get_config_chainId]; norm_num [RateLimitConfig.default])
      (by rw [get_config_chainId]; norm_num [RateLimitConfig.default])
      (by norm_num)
  have hrl2 : (check_limit [] ("w1" ++ ":" ++ "https://example.org")
      "personal_sign" 0).2 = none :=
    check_limit_fresh_none _ _ 2
      (by rw [get_config_personalSign]; norm_num [RateLimitConfig.sensitive])
      (by rw [get_config_personalSign]; norm_num [RateLimitConfig.sensitive])
      (by rw [get_config_personalSign]; norm_num [RateLimitConfig.sensitive])
      (by norm_num)
  constructor
  · exact ((dapp_request_authorization [] [] [] "w1" "https://example.org"
      ⟨"r1", 100, "eth_chainId", []⟩ 0 100 (.ok "0x171")
      hrl1 (by decide) (by decide)).1 (by decide)).2.1
  · exact (dapp_request_authorization [] [] [] "w1" "https://example.org"
      ⟨"r2", 100, "personal_sign", []⟩ 0 100 (.ok "sig")
      hrl2 (by decide) (by decide)).2 (by decide) .NotConnected rfl

/-- Witness for C9: a request 700 seconds in the past is rejected with 4904;
a request stamped 4900 seconds in the future passes the freshness check and
proceeds to the replay check. -/
theorem dapp_request_freshness_witness :
    request_expired 1000 300 = true ∧
    dapp_request [] [] [] "w1" "https://example.org"
        ⟨"r1", 300, "eth_chainId", []⟩ 0 1000 (.ok "0x171")
      = (⟨"r1", none,
          some ⟨4904, "Request expired (> 5 minutes old)", none⟩⟩,
         [], false) ∧
    request_expired 1000 5900 = false ∧
    dapp_request [] [] [] "w1" "https://example.org"
        ⟨"r2", 5900, "eth_chainId", []⟩ 0 1000 (.ok "0x171")
      = dapp_request_after_freshness [] [] "w1" "https://example.org"
        ⟨"r2", 5900, "eth_chainId", []⟩ 1000 (.ok "0x171") := by
  have hrl1 : (check_limit [] ("w1" ++ ":" ++ "https://example.org")
      "eth_chainId" 0).2 = none :=
    check_limit_fresh_none _ _ 20
      (by rw [get_config_chainId]; norm_num [RateLimitConfig.default])
      (by rw [get_config_chainId]; norm_num [RateLimitConfig.default])
      (by rw [get_config_chainId]; norm_num [RateLimitConfig.default])
      (by norm_num)
  have h1 := dapp_request_freshness [] [] [] "w1" "https://example.org"
    ⟨"r1", 300, "eth_chainId", []⟩ 0 1000 (.ok "0x171") hrl1
  have h2 := dapp_request_freshness [] [] [] "w1" "https://example.org"
    ⟨"r2", 5900, "eth_chainId", []⟩ 0 1000 (.ok "0x171") hrl1
  have ht : request_expired 1000 300 = true := h1.1.mpr (by norm_num)
  have hf : request_expired 1000 5900 = false := h2.2.1 (by norm_num)
  exact ⟨ht, h1.2.2.1 ht, hf, h2.2.2.2 hf⟩

/-- Witness for C10: on the state built by creating one session, validation
succeeds for its key; on the empty reachable state, validation fails with
`NotConnected`. -/
theorem validate_session_defensive_unreachable_witness :
    validate_session_for_window
      (runSessionOps [.create "w1" "https://a.org" none none [] 0])
      "w1" "https://a.org" = .ok () ∧
    validate_session_for_window (runSessionOps []) "w1" "https://a.org" =
      .error .NotConnected := by
  constructor
  · exact (validate_session_defensive_unreachable
      [.create "w1" "https://a.org" none none [] 0] "w1" "https://a.org").1.mpr
      (by decide)
  · exact (validate_session_defensive_unreachable [] "w1" "https://a.org").2.2.2
      rfl

end Vaughan
